import Mathlib

/-!
Verification of the Flask NUTS-3 map dashboard (`app.py`) against its
natural-language specification.

The Python program is shallowly embedded: pandas/geopandas data frames
become Lean lists of records, numeric cell values become `Option ℚ`
(`none` is pandas' NaN / missing marker), Python string operations are
re-implemented over `List Char`, and the one state-dependent claim is
settled over an explicit heap of frame objects in which each pandas
operation has its documented copy/in-place semantics.
-/

namespace FlaskMapApp

/-! ## Python string primitives

The Python builtins used by `app.py` (`str.strip`, `str.lower`,
`str.endswith`, `str.isdigit`, `int`) re-implemented over the character
list of a Lean `String`.  Only ASCII inputs occur in the claims; the
definitions agree with CPython on ASCII. -/

/-- Python `str.strip()`: drop whitespace from both ends. -/
def py_strip (s : String) : String :=
  ⟨((s.data.dropWhile Char.isWhitespace).reverse.dropWhile Char.isWhitespace).reverse⟩

/-- Python `str.lower()` (ASCII case folding). -/
def py_lower (s : String) : String :=
  ⟨s.data.map Char.toLower⟩

/-- Python `str.endswith(suffix)`. -/
def py_endswith (s suffix : String) : Bool :=
  List.isSuffixOf suffix.data s.data

/-- Python `str.isdigit()` for ASCII strings: nonempty and all digits. -/
def py_isdigit (s : String) : Bool :=
  !s.data.isEmpty && s.data.all Char.isDigit

/-- Python `int(s)` on an all-digit string (the only situation where the
source calls it, guarded by `isdigit`). -/
def py_int (s : String) : Int :=
  Int.ofNat (s.data.foldl (fun n c => 10 * n + (c.toNat - 48)) 0)

/-! ## Data model

`Region geometry` rows (the pickled GeoDataFrame) and `Measurement`
rows (the concatenated Excel table).  The polygon geometry itself is
never inspected by the claims and is kept as an opaque tag field so
that rows remain comparable. -/

/-- One row of the preprocessed Greek shapefile GeoDataFrame: the region
id, the optional hierarchical label columns (absent column ↦ `none`),
and an opaque geometry tag. -/
structure RegionRow where
  NUTS_ID : String
  NUTS_Level_1 : Option String := none
  NUTS_Level_2 : Option String := none
  NUTS_Level_3 : Option String := none
  geometry : Nat := 0
deriving DecidableEq, Repr

/-- One row of the unified measurement table (after the `VALUE` column
was coerced with `pd.to_numeric(..., errors="coerce")`): `none` is NaN. -/
structure MeasurementRow where
  NUTS_ID : String
  YEAR : Int
  SEX : String
  age : String
  VALUE : Option ℚ
deriving DecidableEq, Repr

/-- The (region id, year, sex, age-group) key of a measurement row. -/
def mkey (m : MeasurementRow) : String × Int × String × String :=
  (m.NUTS_ID, m.YEAR, m.SEX, m.age)

/-- A row of `gdf_greece.merge(df_filtered, how="left", on="NUTS_ID")`:
all left-side (region) columns plus the measurement value, NaN when the
region had no matching measurement. -/
structure JoinedRow where
  region : RegionRow
  VALUE : Option ℚ
deriving DecidableEq, Repr

/-- A joined row after the `merged["NUTS_Name"], merged["NUTS_Code"] = ...`
column assignment. -/
structure MergedRow where
  region : RegionRow
  VALUE : Option ℚ
  NUTS_Name : String
  NUTS_Code : String
deriving DecidableEq, Repr

/-! ## get_nuts_info (app.py lines 85-98) -/

/-- Translation of `get_nuts_info(row)`: walk the three level columns,
keep the stripped value of each column that is present, truthy and not
whitespace-only, join with `" - "`. -/
def get_nuts_info (row : RegionRow) : String × String :=
  let parts : List String :=
    [row.NUTS_Level_1, row.NUTS_Level_2, row.NUTS_Level_3].foldl
      (fun acc val =>
        match val with
        | some v => if v ≠ "" ∧ py_strip v ≠ "" then acc ++ [py_strip v] else acc
        | none => acc) []
  let nuts_name := if parts ≠ [] then String.intercalate " - " parts else ""
  (nuts_name, row.NUTS_ID)

/-- Display-name derivation in the words of the specification: the parts,
after trimming, that are non-empty, joined with `" - "`. -/
def display_name_spec (row : RegionRow) : String :=
  String.intercalate " - "
    ((([row.NUTS_Level_1, row.NUTS_Level_2, row.NUTS_Level_3].filterMap id).map
      py_strip).filter (fun p => p ≠ ""))

/-! ## get_merged_gdf (app.py lines 118-131) -/

/-- The boolean filter
`(df_all["YEAR"] == year) & (df_all["SEX"] == sex) & (df_all["age"] == age)`
followed by `.copy()`. -/
def filterMeasurements (df_all : List MeasurementRow) (year : Int) (sex age : String) :
    List MeasurementRow :=
  df_all.filter (fun m => m.YEAR == year && m.SEX == sex && m.age == age)

/-- Pandas `gdf_greece.merge(df_filtered, how="left", on="NUTS_ID")`:
every left row joins with each matching right row; a left row with no
match is emitted once, with NaN in the right-side columns. -/
def pdMergeLeft (gdf_greece : List RegionRow) (df_filtered : List MeasurementRow) :
    List JoinedRow :=
  gdf_greece.flatMap (fun g =>
    match df_filtered.filter (fun m => m.NUTS_ID == g.NUTS_ID) with
    | [] => [⟨g, none⟩]
    | m :: ms => (m :: ms).map (fun m' => ⟨g, m'.VALUE⟩))

/-- The column assignment
`merged["NUTS_Name"], merged["NUTS_Code"] = zip(*merged.apply(get_nuts_info, axis=1))`
applied to one row. -/
def addNutsColumns (j : JoinedRow) : MergedRow :=
  let info := get_nuts_info j.region
  ⟨j.region, j.VALUE, info.1, info.2⟩

/-- Translation of `get_merged_gdf(year, sex, age)`, with the two cached
process-wide inputs passed explicitly. -/
def get_merged_gdf (gdf_greece : List RegionRow) (df_all : List MeasurementRow)
    (year : Int) (sex age : String) : List MergedRow :=
  (pdMergeLeft gdf_greece (filterMeasurements df_all year sex age)).map addNutsColumns

/-! ## Translations (app.py lines 229-266) -/

/-- One label set of `translations_dict`. -/
structure Translations where
  title : String
  select_language : String
  select_dataset : String
  select_year : String
  select_sex : String
  select_age : String
  color_scale : String
  default_data : String
  generate_map : String
  choropleth_map : String
  bar_chart : String
  region : String
  name : String
  code : String
  value : String
  apply : String
deriving DecidableEq, Repr

/-- The English label set. -/
def en_translations : Translations :=
  ⟨"Greek Data Maps (NUTS3)", "Select Language", "Select Data Set", "Select Year",
   "Select Sex", "Select Age Group", "Color Scale", "Population-NUTS DATA",
   "Generate Plots", "Choropleth Map", "Bar Chart", "Region", "Name", "Code",
   "Value", "Apply"⟩

/-- The Greek label set. -/
def el_translations : Translations :=
  ⟨"Χάρτες Δεδομένων Ελλάδας (NUTS3)", "Επιλέξτε Γλώσσα", "Επιλέξτε Σύνολο Δεδομένων",
   "Επιλέξτε Έτος", "Επιλέξτε Φύλο", "Επιλέξτε Ομάδα Ηλικίας", "Κλίμακα Χρωμάτων",
   "Δεδομένα Πληθυσμού NUTS", "Δημιουργία Διαγραμμάτων", "Χάρτης Χρωματικής Κλίμακας",
   "Ραβδογράφημα", "Περιοχή", "Όνομα", "Κωδικός", "Τιμή", "Εφαρμογή"⟩

/-- The translation table, as the ordered key/value pairs of the Python dict. -/
def translations_dict : List (String × Translations) :=
  [("en", en_translations), ("el", el_translations)]

/-- Python `translations_dict.get(language, translations_dict["en"])`. -/
def getTrans (language : String) : Translations :=
  (((translations_dict.find? (fun p => p.1 == language)).map Prod.snd)).getD en_translations

/-! ## Chart renderers (app.py lines 136-224)

Only the data-determining parts of the two Plotly figures are modelled:
the computed colour range, the selected label set, the rows handed to
the figure, and the colour scale name.  The surrounding Plotly/HTML
serialisation is a deterministic function of these. -/

/-- Computed colour range of `get_choropleth_html` (lines 145-152):
drop NaN, default to (0, 1) when empty, widen by `1e-6` on each side
when minimum equals maximum. -/
def choropleth_value_range (merged_gdf : List MergedRow) : ℚ × ℚ :=
  let vals := merged_gdf.filterMap (fun r => r.VALUE)
  match vals with
  | [] => (0, 1)
  | v :: vs =>
    let val_min := vs.foldl min v
    let val_max := vs.foldl max v
    if val_min = val_max then (val_min - 1 / 1000000, val_max + 1 / 1000000)
    else (val_min, val_max)

/-- Ascending order on the derived display name, as pandas
`sort_values("NUTS_Name")` compares Python strings: lexicographic on
code points. -/
def nameLe (a b : MergedRow) : Prop :=
  a.NUTS_Name.data ≤ b.NUTS_Name.data

instance : DecidableRel nameLe :=
  fun a b => inferInstanceAs (Decidable (a.NUTS_Name.data ≤ b.NUTS_Name.data))

instance : IsTotal MergedRow nameLe :=
  ⟨fun a b => le_total a.NUTS_Name.data b.NUTS_Name.data⟩

instance : IsTrans MergedRow nameLe :=
  ⟨fun _ _ _ h1 h2 => le_trans h1 h2⟩

/-- The row predicate of `merged[merged["VALUE"] > 0]`: NaN compares
false against 0 in pandas. -/
def value_pos (r : MergedRow) : Bool :=
  match r.VALUE with
  | some v => decide (0 < v)
  | none => false

/-- Rows rendered by `get_bar_chart_html` (lines 194-195): filter to
strictly positive values, then sort by display name. -/
def get_bar_chart_rows (merged : List MergedRow) : List MergedRow :=
  List.insertionSort nameLe (merged.filter value_pos)

/-- The data-determining content of the choropleth figure produced by
`get_choropleth_html`. -/
structure ChoroplethSpec where
  trans : Translations
  rows : List MergedRow
  range_color : ℚ × ℚ
  color_scale : String
deriving DecidableEq, Repr

/-- The data-determining content of the bar figure produced by
`get_bar_chart_html`. -/
structure BarChartSpec where
  trans : Translations
  rows : List MergedRow
  color_scale : String
deriving DecidableEq, Repr

/-- Model of `get_choropleth_html(year, sex, age, color_scale, language)`
with the cached loader results passed explicitly. -/
def get_choropleth_spec (gdf_greece : List RegionRow) (df_all : List MeasurementRow)
    (year : Int) (sex age color_scale language : String) : ChoroplethSpec :=
  let trans := getTrans language
  let merged_gdf := get_merged_gdf gdf_greece df_all year sex age
  ⟨trans, merged_gdf, choropleth_value_range merged_gdf, color_scale⟩

/-- Model of `get_bar_chart_html(year, sex, age, color_scale, language)`
with the cached loader results passed explicitly. -/
def get_bar_chart_spec (gdf_greece : List RegionRow) (df_all : List MeasurementRow)
    (year : Int) (sex age color_scale language : String) : BarChartSpec :=
  let trans := getTrans language
  let merged := get_merged_gdf gdf_greece df_all year sex age
  ⟨trans, get_bar_chart_rows merged, color_scale⟩

/-! ## load_default_data (app.py lines 55-80)

Excel reading is modelled one level up: a directory listing is a list of
file names, each carrying `some` parsed table when `pd.read_excel`
succeeds and `none` when it raises.  A cell is either numeric or not;
`pd.to_numeric(..., errors="coerce")` keeps numeric cells and turns a
non-numeric cell into NaN, which the `Cell.nonNumeric` constructor also
denotes after coercion. -/

/-- One spreadsheet cell: numeric content, or content that
`pd.to_numeric` cannot convert (including NaN). -/
inductive Cell
  | num (q : ℚ)
  | nonNumeric
deriving DecidableEq, Repr

/-- One raw spreadsheet row: cells keyed by column name. -/
abbrev RawRow := List (String × Cell)

/-- One parsed spreadsheet: its column names and its rows. -/
structure RawTable where
  cols : List String
  rows : List RawRow
deriving DecidableEq, Repr

/-- One directory entry: the file name and, when `pd.read_excel`
succeeds on it, the parsed table. -/
structure ExcelFile where
  name : String
  parsed : Option RawTable
deriving DecidableEq, Repr

/-- The exceptions `load_default_data` can raise:
`"No Excel files found ..."`, `"No valid Excel files could be read."`,
and `"Missing column '...' in Excel data."`. -/
inductive LoadError
  | noExcelFiles
  | noValidFiles
  | missingColumn (col : String)
deriving DecidableEq, Repr

/-- The outcome of `load_default_data`: a returned table or a raised
exception. -/
inductive LoadResult
  | ok (t : RawTable)
  | error (e : LoadError)
deriving DecidableEq, Repr

/-- The five columns `load_default_data` validates, in source order. -/
def required_columns : List String := ["NUTS_ID", "YEAR", "SEX", "age", "VALUE"]

/-- The directory listing filter
`[f for f in os.listdir(EXCEL_FOLDER) if f.lower().endswith(".xlsx")]`. -/
def xlsx_files (files : List ExcelFile) : List ExcelFile :=
  files.filter (fun f => py_endswith (py_lower f.name) ".xlsx")

/-- The tables of the files that parse (`df_list` after the read loop:
a file whose read raises is skipped). -/
def parsed_tables (files : List ExcelFile) : List RawTable :=
  (xlsx_files files).filterMap (fun f => f.parsed)

/-- Model of `pd.to_numeric(..., errors="coerce")` on one cell. -/
def to_numeric_cell : Cell → Cell
  | .num q => .num q
  | .nonNumeric => .nonNumeric

/-- The assignment `df_all["VALUE"] = pd.to_numeric(df_all["VALUE"], errors="coerce")`
on one row. -/
def coerce_value_column (r : RawRow) : RawRow :=
  r.map (fun kc => if kc.1 = "VALUE" then (kc.1, to_numeric_cell kc.2) else kc)

/-- Translation of `load_default_data()`.  Concatenation takes the rows
of the successfully parsed tables in order; the `cols` of the result
list the parsed tables' columns in order, so that membership matches
pandas' column union. -/
def load_default_data (files : List ExcelFile) : LoadResult :=
  let all_files := xlsx_files files
  if all_files.isEmpty then .error .noExcelFiles
  else
    let df_list := all_files.filterMap (fun f => f.parsed)
    if df_list.isEmpty then .error .noValidFiles
    else
      let cols := (df_list.map (fun t => t.cols)).flatten
      let rows := (df_list.map (fun t => t.rows)).flatten
      match required_columns.find? (fun col => !(decide (col ∈ cols))) with
      | some col => .error (.missingColumn col)
      | none => .ok ⟨cols, rows.map coerce_value_column⟩

/-! ## The request handler `index` (app.py lines 271-560)

The HTTP/templating machinery is external; what is modelled is every
value the handler computes from the request and hands to
`render_template_string` (plus the chart markup, represented by the
data-determining chart specs, of which the Plotly HTML is a
deterministic function).  Missing form fields are `none`;
`request.form.get(k, d)` is `Option.getD`. -/

/-- The HTTP method of the request. -/
inductive Method
  | get
  | post
deriving DecidableEq, Repr

/-- The form fields the handler reads. -/
structure FormData where
  language : Option String
  color_scale : Option String
  dataset : Option String
  form_type : Option String
  selected_year : Option String
  selected_sex : Option String
  selected_age : Option String
deriving DecidableEq, Repr

/-- The module-level `color_scales` list. -/
def color_scales : List String :=
  ["Viridis", "Tealrose", "Inferno", "Turbo", "Plasma", "Cividis"]

/-- Pointwise order on `Int` used for `sorted(...)`. -/
def intLe (a b : Int) : Prop := a ≤ b

instance : DecidableRel intLe := fun a b => Int.decLe a b

/-- Python string order (lexicographic on code points) used for `sorted(...)`. -/
def strLe (a b : String) : Prop := a.data ≤ b.data

instance : DecidableRel strLe :=
  fun a b => inferInstanceAs (Decidable (a.data ≤ b.data))

/-- Model of `sorted(df_all["YEAR"].dropna().unique())`: the distinct year values
in ascending order (`YEAR` is total in the model, so `dropna` is the
identity). -/
def years_available_of (df_all : List MeasurementRow) : List Int :=
  List.insertionSort intLe (df_all.map (fun m => m.YEAR)).dedup

/-- Model of `sorted(df_all["SEX"].dropna().unique())`. -/
def sexes_available_of (df_all : List MeasurementRow) : List String :=
  List.insertionSort strLe (df_all.map (fun m => m.SEX)).dedup

/-- Model of `sorted(df_all["age"].dropna().unique())`. -/
def ages_available_of (df_all : List MeasurementRow) : List String :=
  List.insertionSort strLe (df_all.map (fun m => m.age)).dedup

/-- Line 302: `int(selected_year_str) if selected_year_str.isdigit()
else (years_available[0] if years_available else 2023)`. -/
def computed_selected_year (years_available : List Int) (selected_year_str : String) : Int :=
  if py_isdigit selected_year_str then py_int selected_year_str
  else years_available.headD 2023

/-- Everything the handler computes from the request: the keyword
arguments of the final `render_template_string` call, with the two
chart markup strings represented by their data-determining specs
(`none` on GET, where the handler passes empty strings). -/
structure IndexResponse where
  language : String
  lang_trans : Translations
  color_scales : List String
  selected_color_scale : String
  years_str : List String
  sexes_str : List String
  ages_str : List String
  selected_year_str : String
  selected_sex_str : String
  selected_age_str : String
  chart_map_html : Option ChoroplethSpec
  chart_bar_html : Option BarChartSpec
  imop_link : String
  imop_text : String
  auto_scroll : Bool
deriving DecidableEq, Repr

/-- Translation of the body of `index()` (the `dataset` field is read
by the handler but contributes to no response value). -/
def index_response (method : Method) (gdf_greece : List RegionRow)
    (df_all : List MeasurementRow) (fd : FormData) : IndexResponse :=
  let language := fd.language.getD "en"
  let lang_trans := getTrans language
  let selected_color_scale := fd.color_scale.getD "Viridis"
  let form_type := fd.form_type.getD "top"
  let auto_scroll := form_type == "top"
  let imop :=
    if language = "el" then ("https://www.dept.aueb.gr/el/imop", "ΕΜΟΠ")
    else ("https://www.dept.aueb.gr/en/imop", "EMOP")
  let years_available := years_available_of df_all
  let years_str := years_available.map (fun y => toString y)
  let sexes_str := sexes_available_of df_all
  let ages_str := ages_available_of df_all
  let selected_year_str := fd.selected_year.getD (years_str.headD "")
  let selected_sex_str := fd.selected_sex.getD (sexes_str.headD "")
  let selected_age_str := fd.selected_age.getD (ages_str.headD "")
  let selected_year := computed_selected_year years_available selected_year_str
  let selected_sex := selected_sex_str
  let selected_age := selected_age_str
  let chart_map_html :=
    match method with
    | .post => some (get_choropleth_spec gdf_greece df_all selected_year selected_sex
        selected_age selected_color_scale language)
    | .get => none
  let chart_bar_html :=
    match method with
    | .post => some (get_bar_chart_spec gdf_greece df_all selected_year selected_sex
        selected_age selected_color_scale language)
    | .get => none
  ⟨language, lang_trans, color_scales, selected_color_scale, years_str, sexes_str, ages_str,
   selected_year_str, selected_sex_str, selected_age_str, chart_map_html, chart_bar_html,
   imop.1, imop.2, auto_scroll⟩

/-! ## Heap model for the frame-effect claim

Pandas frames live on an explicit heap of numbered objects.  Each
operation of `get_merged_gdf` is given its documented semantics:
boolean-mask filtering plus `.copy()` allocates a fresh frame, `merge`
allocates a fresh frame, and column assignment writes the target frame
in place. -/

/-- A heap-allocated pandas object in one of the shapes
`get_merged_gdf` manipulates. -/
inductive PdFrame
  | regions (rows : List RegionRow)
  | measurements (rows : List MeasurementRow)
  | joined (rows : List JoinedRow)
  | merged (rows : List MergedRow)
deriving DecidableEq, Repr

/-- The heap: numbered frames. -/
abbrev Heap := List (Nat × PdFrame)

/-- The ids present on a heap. -/
def heap_ids (h : Heap) : List Nat := h.map Prod.fst

/-- Read the frame stored at an id. -/
def heap_lookup (h : Heap) (i : Nat) : Option PdFrame :=
  (h.find? (fun p => p.1 == i)).map Prod.snd

/-- An id strictly larger than every id on the heap. -/
def fresh_id (h : Heap) : Nat := (heap_ids h).foldr max 0 + 1

/-- Allocate a new frame, returning the extended heap and the new id. -/
def heap_alloc (h : Heap) (f : PdFrame) : Heap × Nat :=
  ((fresh_id h, f) :: h, fresh_id h)

/-- Overwrite the frame at an id, in place. -/
def heap_write (h : Heap) (i : Nat) (f : PdFrame) : Heap :=
  h.map (fun p => if p.1 = i then (i, f) else p)

/-- Translation of `get_merged_gdf` over the heap.  `gid` and `did` are
the ids of the cached `load_shapefile()` and `load_default_data()`
results; `none` when either id does not hold a frame of the expected
shape. -/
def get_merged_gdf_heap (h : Heap) (gid did : Nat) (year : Int) (sex age : String) :
    Option (Heap × Nat) :=
  match heap_lookup h gid, heap_lookup h did with
  | some (.regions gdf_greece), some (.measurements df_all) =>
    let p1 := heap_alloc h (.measurements (filterMeasurements df_all year sex age))
    let p2 := heap_alloc p1.1 (.joined (pdMergeLeft gdf_greece (filterMeasurements df_all year sex age)))
    let h3 := heap_write p2.1 p2.2
      (.merged ((pdMergeLeft gdf_greece (filterMeasurements df_all year sex age)).map addNutsColumns))
    some (h3, p2.2)
  | _, _ => none

/-! ## Shared concrete sample data for closed instances -/

/-- A bare region row with only the id set. -/
def sampleRegion (s : String) : RegionRow := ⟨s, none, none, none, 0⟩

/-- The specification's concrete geometry set `EL1, EL2, EL3`. -/
def sample_gdf : List RegionRow :=
  [sampleRegion "EL1", sampleRegion "EL2", sampleRegion "EL3"]

/-- The specification's concrete measurement table. -/
def sample_df : List MeasurementRow :=
  [⟨"EL1", 2020, "T", "TOTAL", some 100⟩, ⟨"EL2", 2020, "T", "TOTAL", some 200⟩]

/-! ## Theorems -/
lemma py_strip_empty : py_strip "" = "" := rfl

lemma strip_cond_iff (v : String) : (v ≠ "" ∧ py_strip v ≠ "") ↔ py_strip v ≠ "" :=
  ⟨And.right, fun h => ⟨fun hv => h (by rw [hv]; rfl), h⟩⟩

/-- C5: the derived display name is the non-empty trimmed level labels
joined with " - ", and the derived code is the region id; in particular
labels "Attica", "", "Athens" yield "Attica - Athens". -/
theorem C5_display_name_derivation (row : RegionRow) :
    get_nuts_info row = (display_name_spec row, row.NUTS_ID) ∧
    get_nuts_info ⟨"EL30", some "Attica", some "", some "Athens", 0⟩ = ("Attica - Athens", "EL30") := by
  refine ⟨?_, by decide⟩
  obtain ⟨nid, l1, l2, l3, g⟩ := row
  have hparts :
      ([l1, l2, l3].foldl
        (fun acc val =>
          match val with
          | some v => if v ≠ "" ∧ py_strip v ≠ "" then acc ++ [py_strip v] else acc
          | none => acc) []) =
      ((([l1, l2, l3].filterMap id).map py_strip).filter (fun p => p ≠ "")) := by
    simp only [strip_cond_iff]
    cases l1 <;> cases l2 <;> cases l3 <;>
      simp only [List.foldl_cons, List.foldl_nil, List.filterMap_cons, List.filterMap_nil,
        id, List.map_cons, List.map_nil, List.filter_cons, List.filter_nil] <;>
      split_ifs <;> simp_all
  simp only [get_nuts_info, display_name_spec]
  rw [hparts]
  split_ifs with hne
  · rfl
  · rw [not_not] at hne
    rw [hne]
    rfl

/-- C3: when every value is missing, the map's colour range is [0, 1]. -/
theorem C3_all_missing_range (merged : List MergedRow)
    (h : ∀ r ∈ merged, r.VALUE = none) :
    choropleth_value_range merged = (0, 1) := by
  have hv : merged.filterMap (fun r => r.VALUE) = [] := List.filterMap_eq_nil_iff.mpr h
  simp [choropleth_value_range, hv]

theorem C3_witness :
    (∀ r ∈ ([⟨sampleRegion "EL1", none, "", "EL1"⟩, ⟨sampleRegion "EL2", none, "", "EL2"⟩] :
        List MergedRow), r.VALUE = none) ∧
    choropleth_value_range
      [⟨sampleRegion "EL1", none, "", "EL1"⟩, ⟨sampleRegion "EL2", none, "", "EL2"⟩] = (0, 1) :=
  ⟨by decide, C3_all_missing_range _ (by decide)⟩

lemma foldl_min_const (l : List ℚ) (v : ℚ) (h : ∀ x ∈ l, x = v) : l.foldl min v = v := by
  induction l with
  | nil => rfl
  | cons a t ih =>
    have ha : a = v := h a (List.mem_cons_self a t)
    have ht : ∀ x ∈ t, x = v := fun x hx => h x (List.mem_cons_of_mem _ hx)
    simp [List.foldl_cons, ha, min_self, ih ht]

lemma foldl_max_const (l : List ℚ) (v : ℚ) (h : ∀ x ∈ l, x = v) : l.foldl max v = v := by
  induction l with
  | nil => rfl
  | cons a t ih =>
    have ha : a = v := h a (List.mem_cons_self a t)
    have ht : ∀ x ∈ t, x = v := fun x hx => h x (List.mem_cons_of_mem _ hx)
    simp [List.foldl_cons, ha, max_self, ih ht]

/-- C4: when the present values all equal a constant v, the map's colour
range is [v - 1e-6, v + 1e-6], a range of positive width. -/
theorem C4_constant_value_range (merged : List MergedRow) (v : ℚ)
    (hex : ∃ r ∈ merged, r.VALUE = some v)
    (hall : ∀ r ∈ merged, ∀ w, r.VALUE = some w → w = v) :
    choropleth_value_range merged = (v - 1 / 1000000, v + 1 / 1000000) ∧
    (choropleth_value_range merged).1 < (choropleth_value_range merged).2 := by
  have hvals : ∀ w ∈ merged.filterMap (fun r => r.VALUE), w = v := by
    intro w hw
    rcases List.mem_filterMap.mp hw with ⟨r, hr, hrw⟩
    exact hall r hr w hrw
  have hv : v ∈ merged.filterMap (fun r => r.VALUE) := by
    rcases hex with ⟨r, hr, hrv⟩
    exact List.mem_filterMap.mpr ⟨r, hr, hrv⟩
  obtain ⟨a, t, hat⟩ := List.exists_cons_of_ne_nil (List.ne_nil_of_mem hv)
  have ha : a = v := hvals a (by rw [hat]; exact List.mem_cons_self a t)
  have ht : ∀ x ∈ t, x = v := fun x hx => hvals x (by rw [hat]; exact List.mem_cons_of_mem _ hx)
  subst ha
  have hrange : choropleth_value_range merged = (a - 1 / 1000000, a + 1 / 1000000) := by
    simp only [choropleth_value_range, hat]
    rw [foldl_min_const t a ht, foldl_max_const t a ht]
    simp
  refine ⟨hrange, ?_⟩
  rw [hrange]
  have : (0 : ℚ) < 1 / 1000000 := by norm_num
  simp only []
  linarith

theorem C4_witness :
    (∃ r ∈ ([⟨sampleRegion "EL1", some 5, "", "EL1"⟩] : List MergedRow), r.VALUE = some 5) ∧
    choropleth_value_range [⟨sampleRegion "EL1", some 5, "", "EL1"⟩] =
      (5 - 1 / 1000000, 5 + 1 / 1000000) :=
  ⟨by decide, (C4_constant_value_range _ 5 (by decide) (by decide)).1⟩

/-- C7: both renderers pick the label set by exact key lookup: "el"
selects the Greek set, and any key absent from the table selects the
English set. -/
theorem C7_language_selection (gdf_greece : List RegionRow) (df_all : List MeasurementRow)
    (year : Int) (sex age cs lang : String) :
    ((get_choropleth_spec gdf_greece df_all year sex age cs "el").trans = el_translations ∧
     (get_bar_chart_spec gdf_greece df_all year sex age cs "el").trans = el_translations) ∧
    ((∀ p ∈ translations_dict, p.1 ≠ lang) →
     (get_choropleth_spec gdf_greece df_all year sex age cs lang).trans = en_translations ∧
     (get_bar_chart_spec gdf_greece df_all year sex age cs lang).trans = en_translations) := by
  refine ⟨⟨rfl, rfl⟩, fun h => ?_⟩
  have hf : translations_dict.find? (fun p => p.1 == lang) = none := by
    apply List.find?_eq_none.mpr
    intro p hp
    simpa using h p hp
  constructor <;> simp [get_choropleth_spec, get_bar_chart_spec, getTrans, hf]

theorem C7_witness :
    (∀ p ∈ translations_dict, p.1 ≠ "fr") ∧
    ((get_choropleth_spec sample_gdf sample_df 2020 "T" "TOTAL" "Viridis" "fr").trans =
      en_translations ∧
     (get_bar_chart_spec sample_gdf sample_df 2020 "T" "TOTAL" "Viridis" "fr").trans =
      en_translations) :=
  ⟨by decide, (C7_language_selection sample_gdf sample_df 2020 "T" "TOTAL" "Viridis" "fr").2
    (by decide)⟩

lemma matched_all_key (df_all : List MeasurementRow) (year : Int) (sex age : String)
    (g : String) :
    ∀ m ∈ (filterMeasurements df_all year sex age).filter (fun m => m.NUTS_ID == g),
      mkey m = (g, year, sex, age) := by
  intro m hm
  have hm1 := List.mem_filter.mp hm
  have hm2 := List.mem_filter.mp hm1.1
  have hid : m.NUTS_ID = g := by simpa using hm1.2
  have hrest := hm2.2
  simp only [Bool.and_eq_true, beq_iff_eq] at hrest
  simp [mkey, hid, hrest.1.1, hrest.1.2, hrest.2]

lemma matched_length_le_one (df_all : List MeasurementRow) (year : Int) (sex age : String)
    (huniq : df_all.Pairwise (fun m1 m2 => mkey m1 ≠ mkey m2)) (g : String) :
    ((filterMeasurements df_all year sex age).filter (fun m => m.NUTS_ID == g)).length ≤ 1 := by
  have h1 : ((filterMeasurements df_all year sex age).filter
      (fun m => m.NUTS_ID == g)).Pairwise (fun m1 m2 => mkey m1 ≠ mkey m2) :=
    (huniq.filter _).filter _
  have h2 := matched_all_key df_all year sex age g
  cases hl : (filterMeasurements df_all year sex age).filter (fun m => m.NUTS_ID == g) with
  | nil => simp
  | cons a t =>
    cases t with
    | nil => simp
    | cons b t2 =>
      exfalso
      rw [hl] at h1 h2
      have hab := (List.pairwise_cons.mp h1).1 b (by simp)
      have ha := h2 a (by simp)
      have hb := h2 b (by simp)
      exact hab (ha.trans hb.symm)

lemma pdMergeLeft_length (gdf_greece : List RegionRow) (df_filtered : List MeasurementRow)
    (h : ∀ s : String, (df_filtered.filter (fun m => m.NUTS_ID == s)).length ≤ 1) :
    (pdMergeLeft gdf_greece df_filtered).length = gdf_greece.length := by
  induction gdf_greece with
  | nil => rfl
  | cons g t ih =>
    have hb : pdMergeLeft (g :: t) df_filtered =
        (match df_filtered.filter (fun m => m.NUTS_ID == g.NUTS_ID) with
         | [] => [(⟨g, none⟩ : JoinedRow)]
         | m :: ms => (m :: ms).map (fun m' => ⟨g, m'.VALUE⟩)) ++ pdMergeLeft t df_filtered := by
      simp [pdMergeLeft]
    rw [hb, List.length_append, ih]
    cases hm : df_filtered.filter (fun m => m.NUTS_ID == g.NUTS_ID) with
    | nil =>
      simp [hm]
      omega
    | cons m ms =>
      have hle := h g.NUTS_ID
      rw [hm] at hle
      simp at hle
      subst hle
      simp [hm]
      omega

/-- C1: under unique measurement keys, the merge yields one output row
per region row, and a region with no matching measurement appears with
a missing value. -/
theorem C1_merge_row_count (gdf_greece : List RegionRow) (df_all : List MeasurementRow)
    (year : Int) (sex age : String)
    (huniq : df_all.Pairwise (fun m1 m2 => mkey m1 ≠ mkey m2)) :
    (get_merged_gdf gdf_greece df_all year sex age).length = gdf_greece.length ∧
    ∀ g ∈ gdf_greece,
      (filterMeasurements df_all year sex age).filter (fun m => m.NUTS_ID == g.NUTS_ID) = [] →
      ∃ r ∈ get_merged_gdf gdf_greece df_all year sex age, r.region = g ∧ r.VALUE = none := by
  constructor
  · rw [get_merged_gdf, List.length_map]
    exact pdMergeLeft_length _ _ (fun s => matched_length_le_one df_all year sex age huniq s)
  · intro g hg hmatch
    refine ⟨addNutsColumns ⟨g, none⟩, ?_, rfl, rfl⟩
    rw [get_merged_gdf]
    apply List.mem_map_of_mem
    apply List.mem_flatMap.mpr
    exact ⟨g, hg, by rw [hmatch]; simp⟩

theorem C1_witness :
    (sample_df.Pairwise (fun m1 m2 => mkey m1 ≠ mkey m2)) ∧
    (get_merged_gdf sample_gdf sample_df 2020 "T" "TOTAL").length = sample_gdf.length :=
  ⟨by decide, (C1_merge_row_count sample_gdf sample_df 2020 "T" "TOTAL" (by decide)).1⟩

/-- C2: the bar chart contains exactly the merged rows with value
strictly greater than zero, in ascending display-name order. -/
theorem C2_bar_rows (merged : List MergedRow) :
    (get_bar_chart_rows merged).Perm (merged.filter value_pos) ∧
    (∀ r : MergedRow, r ∈ get_bar_chart_rows merged ↔
      r ∈ merged ∧ ∃ v : ℚ, r.VALUE = some v ∧ 0 < v) ∧
    (get_bar_chart_rows merged).Pairwise nameLe := by
  refine ⟨List.perm_insertionSort nameLe _, fun r => ?_, List.sorted_insertionSort nameLe _⟩
  rw [get_bar_chart_rows,
    (List.perm_insertionSort nameLe (merged.filter value_pos)).mem_iff, List.mem_filter]
  constructor
  · rintro ⟨hr, hv⟩
    refine ⟨hr, ?_⟩
    cases hval : r.VALUE with
    | none => rw [value_pos, hval] at hv; exact absurd hv (by simp)
    | some v =>
      refine ⟨v, rfl, ?_⟩
      rw [value_pos, hval] at hv
      simpa using hv
  · rintro ⟨hr, v, hval, hpos⟩
    exact ⟨hr, by rw [value_pos, hval]; simpa using hpos⟩

/-- C8 counterexample: a directory whose single spreadsheet parses but
lacks the VALUE column still raises an error. -/
theorem C8_counterexample :
    parsed_tables [⟨"a.xlsx", some ⟨["NUTS_ID", "YEAR", "SEX", "age"], []⟩⟩] ≠ [] ∧
    load_default_data [⟨"a.xlsx", some ⟨["NUTS_ID", "YEAR", "SEX", "age"], []⟩⟩] =
      .error (.missingColumn "VALUE") := by
  decide

/-- C8 amended: the no-data errors are raised exactly when the
directory holds zero .xlsx files, respectively zero parseable ones;
a file whose parse fails is skipped; and when at least one file parses
and the five required columns are all present, the result is the
concatenation of the successfully parsed files with the value column
coerced (a missing required column still raises, which is what the
original claim missed). -/
theorem C8_amended_load (files : List ExcelFile) :
    (load_default_data files = .error .noExcelFiles ↔ xlsx_files files = []) ∧
    (load_default_data files = .error .noValidFiles ↔
      (xlsx_files files ≠ [] ∧ parsed_tables files = [])) ∧
    (parsed_tables files ≠ [] →
      (∀ col ∈ required_columns, col ∈ ((parsed_tables files).map (fun t => t.cols)).flatten) →
      load_default_data files = .ok
        ⟨((parsed_tables files).map (fun t => t.cols)).flatten,
         (((parsed_tables files).map (fun t => t.rows)).flatten).map coerce_value_column⟩) := by
  have hpt : (xlsx_files files).filterMap (fun f => f.parsed) = parsed_tables files := rfl
  simp only [load_default_data, hpt]
  by_cases h1 : (xlsx_files files).isEmpty
  · have h1' : xlsx_files files = [] := by simpa using h1
    have h2' : parsed_tables files = [] := by rw [← hpt, h1']; rfl
    rw [if_pos h1]
    refine ⟨iff_of_true rfl h1', ?_, fun hne _ => absurd h2' hne⟩
    simp [h1', LoadResult.error.injEq]
  · have h1' : xlsx_files files ≠ [] := by simpa using h1
    rw [if_neg h1]
    by_cases h2 : (parsed_tables files).isEmpty
    · have h2' : parsed_tables files = [] := by simpa using h2
      rw [if_pos h2]
      refine ⟨?_, iff_of_true rfl ⟨h1', h2'⟩, fun hne _ => absurd h2' hne⟩
      simp [h1', LoadResult.error.injEq]
    · have h2' : parsed_tables files ≠ [] := by simpa using h2
      rw [if_neg h2]
      cases hfind : required_columns.find?
          (fun col => !(decide (col ∈ ((parsed_tables files).map (fun t => t.cols)).flatten))) with
      | some col =>
        have hcol := List.find?_some hfind
        have hmem := List.mem_of_find?_eq_some hfind
        simp only [Bool.not_eq_eq_eq_not, Bool.not_true, decide_eq_false_iff_not] at hcol
        refine ⟨?_, ?_, fun _ hcols => absurd (hcols col hmem) hcol⟩
        · simp [h1', LoadResult.error.injEq]
        · simp [h2', LoadResult.error.injEq]
      | none =>
        refine ⟨?_, ?_, fun _ _ => rfl⟩
        · simp [h1', LoadResult.ok.injEq]
        · simp [h2']

theorem C8_witness :
    (parsed_tables
      [⟨"good.xlsx", some ⟨required_columns, [[("NUTS_ID", Cell.nonNumeric)]]⟩⟩,
       ⟨"bad.xlsx", none⟩, ⟨"skip.csv", some ⟨required_columns, []⟩⟩] ≠ []) ∧
    (∀ col ∈ required_columns, col ∈ ((parsed_tables
      [⟨"good.xlsx", some ⟨required_columns, [[("NUTS_ID", Cell.nonNumeric)]]⟩⟩,
       ⟨"bad.xlsx", none⟩, ⟨"skip.csv", some ⟨required_columns, []⟩⟩]).map
        (fun t => t.cols)).flatten) ∧
    load_default_data
      [⟨"good.xlsx", some ⟨required_columns, [[("NUTS_ID", Cell.nonNumeric)]]⟩⟩,
       ⟨"bad.xlsx", none⟩, ⟨"skip.csv", some ⟨required_columns, []⟩⟩] =
      .ok ⟨required_columns, [[("NUTS_ID", Cell.nonNumeric)]]⟩ := by
  refine ⟨by decide, by decide, ?_⟩
  have h := (C8_amended_load
    [⟨"good.xlsx", some ⟨required_columns, [[("NUTS_ID", Cell.nonNumeric)]]⟩⟩,
     ⟨"bad.xlsx", none⟩, ⟨"skip.csv", some ⟨required_columns, []⟩⟩]).2.2 (by decide) (by decide)
  rw [h]
  decide

/-- The form data of the C9 instance: only `selected_year` submitted. -/
def c9_form : FormData := ⟨none, none, none, none, some "20x0", none, none⟩

/-- C9: an unparseable submitted year falls back to the first available
year (when one exists); a parseable one is used as submitted; and the
POST chart markup is generated from that selected year. -/
theorem C9_selected_year (df_all : List MeasurementRow) (fd : FormData) (gdf_greece : List RegionRow)
    (s : String) (hsub : fd.selected_year = some s)
    (hne : years_available_of df_all ≠ []) :
    (py_isdigit s = false →
      computed_selected_year (years_available_of df_all) s = (years_available_of df_all).head hne) ∧
    (py_isdigit s = true →
      computed_selected_year (years_available_of df_all) s = py_int s) ∧
    (index_response .post gdf_greece df_all fd).chart_map_html =
      some (get_choropleth_spec gdf_greece df_all
        (computed_selected_year (years_available_of df_all) s)
        ((index_response .post gdf_greece df_all fd).selected_sex_str)
        ((index_response .post gdf_greece df_all fd).selected_age_str)
        ((index_response .post gdf_greece df_all fd).selected_color_scale)
        ((index_response .post gdf_greece df_all fd).language)) := by
  refine ⟨fun hbad => ?_, fun hgood => ?_, ?_⟩
  · rw [computed_selected_year, if_neg (by simp [hbad])]
    rw [List.headD_eq_head?, List.head?_eq_head hne, Option.getD_some]
  · rw [computed_selected_year, if_pos hgood]
  · simp only [index_response, hsub, Option.getD_some]

theorem C9_witness :
    (c9_form.selected_year = some "20x0" ∧ years_available_of sample_df ≠ [] ∧
      py_isdigit "20x0" = false) ∧
    computed_selected_year (years_available_of sample_df) "20x0" =
      (years_available_of sample_df).head (by decide) :=
  ⟨⟨rfl, by decide, by decide⟩,
    (C9_selected_year sample_df c9_form sample_gdf "20x0" rfl (by decide)).1 (by decide)⟩

/-- The two C6 requests: all fields equal except `form_type`. -/
def c6_form_top : FormData := ⟨none, none, none, some "top", none, none, none⟩

/-- The second C6 request. -/
def c6_form_floating : FormData := ⟨none, none, none, some "floating", none, none, none⟩

/-- C6 counterexample: two POST requests that differ only in the
`form_type` field produce different responses (the auto-scroll flag,
which decides whether the auto-scroll script block is rendered,
differs). -/
theorem C6_counterexample :
    c6_form_floating = { c6_form_top with form_type := some "floating" } ∧
    index_response .post sample_gdf sample_df c6_form_top ≠
      index_response .post sample_gdf sample_df c6_form_floating := by
  refine ⟨by decide, fun h => ?_⟩
  have h2 := congrArg IndexResponse.auto_scroll h
  simp [index_response, c6_form_top, c6_form_floating] at h2

/-- C6 amended: `form_type` influences the response only through the
`auto_scroll` flag (true exactly when the field, defaulted to "top",
equals "top"); every other response component is unchanged. -/
theorem C6_form_type_only_auto_scroll (method : Method) (gdf_greece : List RegionRow)
    (df_all : List MeasurementRow) (fd : FormData) (ft : Option String) :
    index_response method gdf_greece df_all fd =
      { index_response method gdf_greece df_all { fd with form_type := ft } with
        auto_scroll := (fd.form_type.getD "top" == "top") } := rfl

lemma le_foldr_max (l : List Nat) (i : Nat) (hi : i ∈ l) : i ≤ l.foldr max 0 := by
  induction l with
  | nil => cases hi
  | cons a t ih =>
    rcases List.mem_cons.mp hi with h | h
    · rw [h, List.foldr_cons]
      exact le_max_left _ _
    · rw [List.foldr_cons]
      exact le_trans (ih h) (le_max_right _ _)

lemma mem_lt_fresh (h : Heap) (i : Nat) (hi : i ∈ heap_ids h) : i < fresh_id h :=
  Nat.lt_succ_of_le (le_foldr_max _ _ hi)

lemma lookup_mem_ids (h : Heap) (i : Nat) (f : PdFrame) (hl : heap_lookup h i = some f) :
    i ∈ heap_ids h := by
  rw [heap_lookup] at hl
  cases hf : h.find? (fun p => p.1 == i) with
  | none => rw [hf] at hl; cases hl
  | some p =>
    have hp : p.1 = i := by simpa using List.find?_some hf
    have hmem := List.mem_of_find?_eq_some hf
    exact hp ▸ List.mem_map_of_mem Prod.fst hmem

lemma lookup_cons_ne (p : Nat × PdFrame) (h : Heap) (j : Nat) (hne : p.1 ≠ j) :
    heap_lookup (p :: h) j = heap_lookup h j := by
  simp [heap_lookup, List.find?_cons, hne]

lemma lookup_cons_self (i : Nat) (f : PdFrame) (h : Heap) :
    heap_lookup ((i, f) :: h) i = some f := by
  simp [heap_lookup, List.find?_cons]

lemma lookup_write_cons_self (i : Nat) (f g : PdFrame) (h : Heap) :
    heap_lookup (heap_write ((i, f) :: h) i g) i = some g := by
  simp [heap_write, heap_lookup, List.find?_cons]

lemma lookup_write_ne (h : Heap) (i j : Nat) (f : PdFrame) (hne : j ≠ i) :
    heap_lookup (heap_write h i f) j = heap_lookup h j := by
  induction h with
  | nil => rfl
  | cons p t ih =>
    simp only [heap_write, List.map_cons]
    by_cases hp : p.1 = i
    · rw [if_pos hp]
      rw [lookup_cons_ne (i, f) _ j (fun hij => hne hij.symm)]
      rw [lookup_cons_ne p t j (by rw [hp]; exact fun hij => hne hij.symm)]
      exact ih
    · rw [if_neg hp]
      by_cases hj : p.1 = j
      · simp [heap_lookup, List.find?_cons, hj]
      · rw [lookup_cons_ne p _ j hj, lookup_cons_ne p t j hj]
        exact ih

/-- C10: `get_merged_gdf` leaves both of its cached inputs untouched on
the heap: the filter works on a copy, the join allocates a new frame,
and the in-place column assignment hits only the fresh joined frame,
which afterwards holds exactly the pure merge result. -/
theorem C10_inputs_unchanged (h : Heap) (gid did : Nat) (year : Int) (sex age : String)
    (gdf_greece : List RegionRow) (df_all : List MeasurementRow)
    (hg : heap_lookup h gid = some (.regions gdf_greece))
    (hd : heap_lookup h did = some (.measurements df_all)) :
    ∃ hp : Heap × Nat,
      get_merged_gdf_heap h gid did year sex age = some hp ∧
      heap_lookup hp.1 gid = some (.regions gdf_greece) ∧
      heap_lookup hp.1 did = some (.measurements df_all) ∧
      heap_lookup hp.1 hp.2 = some (.merged (get_merged_gdf gdf_greece df_all year sex age)) := by
  have hglt : gid < fresh_id h := mem_lt_fresh h gid (lookup_mem_ids h gid _ hg)
  have hdlt : did < fresh_id h := mem_lt_fresh h did (lookup_mem_ids h did _ hd)
  set h1 : Heap := (fresh_id h, .measurements (filterMeasurements df_all year sex age)) :: h with hh1
  have hg1 : heap_lookup h1 gid = some (.regions gdf_greece) := by
    rw [hh1, lookup_cons_ne _ _ _ (by simp; omega)]
    exact hg
  have hd1 : heap_lookup h1 did = some (.measurements df_all) := by
    rw [hh1, lookup_cons_ne _ _ _ (by simp; omega)]
    exact hd
  have hglt1 : gid < fresh_id h1 := mem_lt_fresh h1 gid (lookup_mem_ids h1 gid _ hg1)
  have hdlt1 : did < fresh_id h1 := mem_lt_fresh h1 did (lookup_mem_ids h1 did _ hd1)
  refine ⟨(heap_write ((fresh_id h1, .joined (pdMergeLeft gdf_greece (filterMeasurements df_all year sex age))) :: h1)
      (fresh_id h1)
      (.merged ((pdMergeLeft gdf_greece (filterMeasurements df_all year sex age)).map addNutsColumns)),
    fresh_id h1), ?_, ?_, ?_, ?_⟩
  · rw [get_merged_gdf_heap, hg, hd]
    rfl
  · rw [lookup_write_ne _ _ _ _ (by omega)]
    rw [lookup_cons_ne _ _ _ (by simp; omega)]
    exact hg1
  · rw [lookup_write_ne _ _ _ _ (by omega)]
    rw [lookup_cons_ne _ _ _ (by simp; omega)]
    exact hd1
  · rw [lookup_write_cons_self]
    rfl

theorem C10_witness :
    ∃ hp : Heap × Nat,
      get_merged_gdf_heap [(1, .regions sample_gdf), (2, .measurements sample_df)] 1 2
        2020 "T" "TOTAL" = some hp ∧
      heap_lookup hp.1 1 = some (.regions sample_gdf) ∧
      heap_lookup hp.1 2 = some (.measurements sample_df) ∧
      heap_lookup hp.1 hp.2 =
        some (.merged (get_merged_gdf sample_gdf sample_df 2020 "T" "TOTAL")) :=
  C10_inputs_unchanged [(1, .regions sample_gdf), (2, .measurements sample_df)] 1 2
    2020 "T" "TOTAL" sample_gdf sample_df (by decide) (by decide)

end FlaskMapApp
